import Mathlib

/-!
Verification of the semfio-mist client library (shallow embedding).

The Python sources under `semfio_mist/` are embedded as executable Lean
definitions.  Pure response-normalisation code becomes pure functions;
the stateful entity objects (`Site`, `WLAN`, `AP`, `Token`) become
explicit state records threaded through each method; the remote Mist
controller is modelled as an explicit cloud state, and every HTTP call
made by a method is appended to an observable trace, so that properties
of the form "issues exactly one POST" or "fails before any network
call" are statable.  Fallible Python code (raised exceptions) returns
`Except String`; Python `None` becomes `Option.none`.
-/

namespace SemfioMist

/-- A parsed JSON value, the shape of request/response bodies that
`json.loads` produces in `mist_api.py`. -/
inductive JVal where
  | null : JVal
  | str (s : String) : JVal
  | num (n : Int) : JVal
  | bool (b : Bool) : JVal
  | arr (xs : List JVal) : JVal
  | obj (fields : List (String × JVal)) : JVal

/-- Dictionary lookup `d[k]` on a JSON object; `none` models a `KeyError`
(or subscripting a non-object). -/
def JVal.lookup : JVal → String → Option JVal
  | .obj fields, k => fields.lookup k
  | _, _ => none

/-- An HTTP response as the `requests` session hands it back: a status
code and an already-parsed JSON body (the embedding assumes
`json.loads` succeeded; a malformed body is a transport-level exception
that propagates in both the code and the spec). -/
structure HttpResponse where
  status : Nat
  body : JVal

/-- `API._verify_response` (mist_api.py:183-198): on a status `>= 400`
logs the error and falls off the function (Python implicitly returns
`None`); otherwise returns the parsed body. -/
def verify_response (r : HttpResponse) : Option JVal :=
  if 400 ≤ r.status then none else some r.body

/-- `API._verify_delete_response` (mist_api.py:200-216): on a status
other than exactly 200 it interpolates `response_text['message']` into
the error log -- a body without a `'message'` key raises `KeyError`
there -- and returns `False`; on 200 it returns `True`. -/
def verify_delete_response (r : HttpResponse) : Except String Bool :=
  if r.status ≠ 200 then
    match r.body.lookup "message" with
    | some _ => .ok false
    | none => .error "KeyError: message"
  else .ok true

namespace API

/-- `API.get` normalises through `_verify_response`; the argument is the
response the mocked transport returned for the call. -/
def get (r : HttpResponse) : Option JVal := verify_response r

/-- `API.post` normalises through `_verify_response`. -/
def post (r : HttpResponse) : Option JVal := verify_response r

/-- `API.put` normalises through `_verify_response`. -/
def put (r : HttpResponse) : Option JVal := verify_response r

/-- `API.delete` normalises through `_verify_delete_response`. -/
def delete (r : HttpResponse) : Except String Bool := verify_delete_response r

end API

/-- Rendering of a possibly-`None` Python value inside an f-string URL:
`f"sites/{self.site_id}"` renders `None` as the literal text `None`. -/
def optToStr : Option String → String
  | some s => s
  | none => "None"

/-- The site-creation payload built by `Site.create`
(mist_site.py:127-140).  After either `__init__` path the attributes
`timezone`, `country_code`, `address`, `lat` and `lng` are present in
the instance `__dict__` (both the probe-adoption path and the
geocoding path assign all of them), so those keys are always present in
the body, holding possibly-`None` values; `rftemplate_id` and
`sitegroup_ids` are keyed in only when the corresponding attributes
were ever set on the instance (outer `Option` = key present). -/
structure SiteBody where
  name : String
  timezone : Option String
  country_code : Option String
  address : Option String
  lat : Option Int
  lng : Option Int
  rftemplate_id : Option (Option String)
  sitegroup_ids : Option (Option (List String))
deriving DecidableEq, Repr

/-- WLAN authentication dict from the config / cloud (`auth` key):
a `type` string plus, for PSK, an optional `psk` passphrase (absent
key = `none`). -/
structure Auth where
  type : String
  psk : Option String
deriving DecidableEq, Repr

/-- The WLAN-creation payload built by `WLAN.create`
(mist_wlan.py:134-143).  Every key is always present; for optional
attributes the value may be `None` (each such attribute has a
class-level default of `None`, so the `in self.__dict__` guards never
change the resulting value). -/
structure WlanBody where
  enabled : String
  ssid : String
  band : Option String
  interface : Option String
  hostname_ie : Option String
  roam_mode : Option String
  auth : Option Auth
  auth_servers : Option (List String)
  rateset : Option String
deriving DecidableEq, Repr

/-- The AP provisioning payload built by `AP.provision`
(mist_ap.py:199-207): keys `map_id`, `height` and `orientation` are
present only when their guards hold (for `map_id` the value itself can
be `None`, hence the nested `Option`). -/
structure ProvBody where
  name : String
  site_id : Option String
  map_id : Option (Option String)
  height : Option String
  orientation : Option String
deriving DecidableEq, Repr

/-- 2.4 GHz radio block written by `AP.configure_radios`. -/
structure Band24 where
  power : Int
  channel : Int
deriving DecidableEq, Repr

/-- 5 GHz radio block written by `AP.configure_radios`. -/
structure Band5 where
  power : Int
  channel : Int
  bandwidth : Int
deriving DecidableEq, Repr

/-- The value stored under the `'radio_config'` key of the shared
`radio_configs` dictionary: the two band sub-dicts, each possibly not
yet written. -/
structure BandsDict where
  band_24 : Option Band24
  band_5 : Option Band5
deriving DecidableEq, Repr

/-- A request body as it appears on the observable call trace. -/
inductive ReqBody where
  | site (b : SiteBody)
  | wlan (b : WlanBody)
  | claimCodes (codes : List String)
  | prov (b : ProvBody)
  | radio (b : Option BandsDict)
  | inv (op : String) (macs : List String)
deriving DecidableEq, Repr

/-- One HTTP call issued through the `API` object, with the relative
URL exactly as the Python f-strings build it. -/
inductive ApiCall where
  | get (url : String)
  | post (url : String) (body : ReqBody)
  | put (url : String) (body : ReqBody)
  | delete (url : String)
deriving DecidableEq, Repr

/-- Number of POST (creation) calls on a trace. -/
def countPosts : List ApiCall → Nat
  | [] => 0
  | ApiCall.post _ _ :: rest => countPosts rest + 1
  | _ :: rest => countPosts rest

/-- Number of PUT calls on a trace. -/
def countPuts : List ApiCall → Nat
  | [] => 0
  | ApiCall.put _ _ :: rest => countPuts rest + 1
  | _ :: rest => countPuts rest

/-- A site record as the cloud lists it under `orgs/:org_id/sites`,
holding exactly the fields `Site._does_exist_on_cloud` consumes and
`Site.create`'s POST produces: the remote id, the natural key `name`,
and the optional observable fields. -/
structure SiteRecord where
  id : String
  name : String
  timezone : Option String
  country_code : Option String
  address : Option String
  latlng : Option (Int × Int)
deriving DecidableEq, Repr

/-- The local `Site` handle (mist_site.py).  `has_rf_fields` records
whether `rf_template_id`/`sitegroup_ids` were ever assigned on the
instance (true on the geocoding construction path, false on the
probe-adoption path), which decides whether `create` keys them into the
payload. -/
structure SiteState where
  site_id : Option String
  name : String
  org_id : String
  timezone : Option String
  country_code : Option String
  address : Option String
  lat : Option Int
  lng : Option Int
  rf_template_id : Option String
  sitegroup_ids : Option (List String)
  has_rf_fields : Bool
deriving DecidableEq, Repr

/-- The remote controller state seen by a `Site` handle: the org's site
list, the id the controller will assign to the next created site, and
the observable trace of HTTP calls issued so far. -/
structure SiteCloud where
  sites : List SiteRecord
  fresh : String
  trace : List ApiCall
deriving DecidableEq, Repr

namespace Site

/-- The field adoption `Site._does_exist_on_cloud` performs on a match
(mist_site.py:97-102): copy the remote record's observable fields onto
the handle (`lat`/`lng` from the nested `latlng` dict, `None` where the
record has no such key). -/
def adopt (s : SiteState) (r : SiteRecord) : SiteState :=
  { s with site_id := some r.id
           timezone := r.timezone
           country_code := r.country_code
           address := r.address
           lat := r.latlng.map Prod.fst
           lng := r.latlng.map Prod.snd }

/-- `Site._does_exist_on_cloud` (mist_site.py:75-104): GET the org's
site list, linear-scan for the first record whose `name` equals the
handle's name; on a match adopt the remote fields and return `True`,
else return `False`. -/
def does_exist_on_cloud (s : SiteState) (c : SiteCloud) :
    Bool × SiteState × SiteCloud :=
  let c1 := { c with trace := c.trace ++ [ApiCall.get ("orgs/" ++ s.org_id ++ "/sites")] }
  match c.sites.find? (fun r => r.name == s.name) with
  | some r => (true, adopt s r, c1)
  | none => (false, s, c1)

/-- The creation payload of `Site.create` (mist_site.py:127-140). -/
def build_body (s : SiteState) : SiteBody :=
  { name := s.name
    timezone := s.timezone
    country_code := s.country_code
    address := s.address
    lat := s.lat
    lng := s.lng
    rftemplate_id := if s.has_rf_fields then some s.rf_template_id else none
    sitegroup_ids := if s.has_rf_fields then some s.sitegroup_ids else none }

/-- The record the controller creates for a site-creation POST
(environment model: the controller assigns the fresh id, stores the
payload's fields, and keeps `latlng` only when both coordinates are
non-null). -/
def cloudNewSite (fresh : String) (b : SiteBody) : SiteRecord :=
  { id := fresh
    name := b.name
    timezone := b.timezone
    country_code := b.country_code
    address := b.address
    latlng := match b.lat, b.lng with
              | some x, some y => some (x, y)
              | _, _ => none }

/-- Result of `Site.create`: either the full POST reply
(`response_new_site`) or, when the site already exists, the one-key
dict `{'id': self.site_id}` built in the else-branch. -/
inductive CreateRes where
  | created (r : SiteRecord)
  | existing (id : Option String)
deriving DecidableEq, Repr

/-- The `'id'` entry of a `Site.create` result dict. -/
def CreateRes.idOf : CreateRes → Option String
  | .created r => some r.id
  | .existing i => i

/-- `Site.create` (mist_site.py:106-152): re-probe; if absent, build
the payload, POST it to `orgs/:org_id/sites`, adopt the returned id and
return the reply; if present, log and return `{'id': self.site_id}`. -/
def create (s : SiteState) (c : SiteCloud) : CreateRes × SiteState × SiteCloud :=
  match does_exist_on_cloud s c with
  | (false, s1, c1) =>
      let r := cloudNewSite c1.fresh (build_body s1)
      let c2 := { c1 with
                  sites := c1.sites ++ [r]
                  trace := c1.trace ++
                    [ApiCall.post ("orgs/" ++ s1.org_id ++ "/sites")
                      (ReqBody.site (build_body s1))] }
      (CreateRes.created r, { s1 with site_id := some r.id }, c2)
  | (true, s1, c1) => (CreateRes.existing s1.site_id, s1, c1)

/-- `Site.delete` (mist_site.py:221-248): re-probe; if present, DELETE
`sites/:site_id` (the controller removes the record and answers 200
exactly when the id existed), log, call the logging-only `__delete__`
hook -- which changes no attribute -- and return the verb's boolean; if
absent, log an error and return `False`. -/
def delete (s : SiteState) (c : SiteCloud) : Bool × SiteState × SiteCloud :=
  match does_exist_on_cloud s c with
  | (true, s1, c1) =>
      let sid := optToStr s1.site_id
      let present := c1.sites.any (fun r => r.id == sid)
      let c2 := { c1 with
                  sites := c1.sites.filter (fun r => r.id != sid)
                  trace := c1.trace ++ [ApiCall.delete ("sites/" ++ sid)] }
      (present, s1, c2)
  | (false, s1, c1) => (false, s1, c1)

end Site

/-- A WLAN record as the cloud lists it under `sites/:site_id/wlans`:
exactly the fields `WLAN._does_exist_on_cloud` consumes.  `band`,
`interface`, `hostname_ie` and `auth` are read unconditionally there,
so they are mandatory; `roam_mode`, `auth_servers` and `rateset` are
guarded by `in wlan` checks, so they are optional. -/
structure WlanRecord where
  id : String
  ssid : String
  band : String
  interface : String
  hostname_ie : String
  auth : Auth
  roam_mode : Option String
  auth_servers : Option (List String)
  rateset : Option String
deriving DecidableEq, Repr

/-- The local `WLAN` handle (mist_wlan.py).  Every attribute with a
class-level default of `None` is a plain `Option`. -/
structure WlanState where
  wlan_id : Option String
  ssid : String
  site_id : String
  band : Option String
  interface : Option String
  hostname_ie : Option String
  auth : Option Auth
  auth_servers : Option (List String)
  roam_mode : Option String
  rateset : Option String
deriving DecidableEq, Repr

/-- The `wlan_config` dict handed to `WLAN.__init__`: a key absent from
the dict is `none`.  `auth_servers := some []` is a present-but-empty
sequence, distinct from an absent key. -/
structure WlanConfig where
  band : Option String
  interface : Option String
  hostname_ie : Option String
  roam_mode : Option String
  rateset : Option String
  auth : Option Auth
  auth_servers : Option (List String)
deriving DecidableEq, Repr

/-- The remote controller state seen by a `WLAN` handle. -/
structure WlanCloud where
  wlans : List WlanRecord
  fresh : String
  trace : List ApiCall
deriving DecidableEq, Repr

namespace WLAN

/-- The field adoption `WLAN._does_exist_on_cloud` performs on a match
(mist_wlan.py:103-110): copy every listed field of the remote record
onto the handle. -/
def adopt (t : WlanState) (r : WlanRecord) : WlanState :=
  { t with wlan_id := some r.id
           band := some r.band
           interface := some r.interface
           hostname_ie := some r.hostname_ie
           roam_mode := r.roam_mode
           auth := some r.auth
           auth_servers := r.auth_servers
           rateset := r.rateset }

/-- `WLAN._does_exist_on_cloud` (mist_wlan.py:87-112): GET the site's
wlan list, linear-scan for the first record whose `ssid` equals the
handle's ssid; on a match adopt every listed field onto the handle and
return `True`, else return `False`. -/
def does_exist_on_cloud (t : WlanState) (d : WlanCloud) :
    Bool × WlanState × WlanCloud :=
  let d1 := { d with trace := d.trace ++ [ApiCall.get ("sites/" ++ t.site_id ++ "/wlans")] }
  match d.wlans.find? (fun r => r.ssid == t.ssid) with
  | some r => (true, adopt t r, d1)
  | none => (false, t, d1)

/-- `WLAN._validate_psk_configuration` (mist_wlan.py:51-66): assigns
`self.auth`, then reads `wlan_config['auth']['psk']`; a missing `psk`
key raises `KeyError`, which the bare `except` converts into the
"No password defined" exception.  An empty passphrase only logs a
warning. -/
def validate_psk_configuration (t : WlanState) (a : Auth) :
    Except String WlanState :=
  match a.psk with
  | some _ => .ok { t with auth := some a }
  | none => .error "Authentication Type: PSK ERROR:No password defined"

/-- `WLAN._validate_dot1x_configuration` (mist_wlan.py:68-85): when the
auth type is eap and the config carries an `auth_servers` key, an empty
sequence raises (through the bare `except`) and a non-empty one is
adopted together with `auth`; when the key is absent nothing happens
and construction succeeds. -/
def validate_dot1x_configuration (t : WlanState) (cfg : WlanConfig) (a : Auth) :
    Except String WlanState :=
  if a.type == "eap" then
    match cfg.auth_servers with
    | some [] => .error "Authentication Type: EAP ERROR: At least one RADIUS authentication server must be defined in your configuration file"
    | some l => .ok { t with auth := some a, auth_servers := some l }
    | none => .ok t
  else .ok t

/-- `WLAN.__init__` (mist_wlan.py:22-49): set ssid/site_id, probe the
cloud (one GET); if found, the probe has adopted the remote fields and
construction ends; if not found, copy the config fields and run the
auth-variant validation, whose exception aborts construction. -/
def init (ssid site_id : String) (cfg : WlanConfig) (d : WlanCloud) :
    Except String WlanState × WlanCloud :=
  let t0 : WlanState :=
    { wlan_id := none, ssid := ssid, site_id := site_id, band := none
      interface := none, hostname_ie := none, auth := none
      auth_servers := none, roam_mode := none, rateset := none }
  match does_exist_on_cloud t0 d with
  | (true, t1, d1) => (.ok t1, d1)
  | (false, t1, d1) =>
      let t2 := { t1 with band := cfg.band
                          interface := cfg.interface
                          hostname_ie := cfg.hostname_ie
                          roam_mode := cfg.roam_mode
                          rateset := cfg.rateset }
      match cfg.auth with
      | some a =>
          if a.type == "psk" then (validate_psk_configuration t2 a, d1)
          else if a.type == "eap" then (validate_dot1x_configuration t2 cfg a, d1)
          else (.ok t2, d1)
      | none => (.ok t2, d1)

/-- The creation payload of `WLAN.create` (mist_wlan.py:134-143),
built before the existence re-probe. -/
def build_body (t : WlanState) : WlanBody :=
  { enabled := "true"
    ssid := t.ssid
    band := t.band
    interface := t.interface
    hostname_ie := t.hostname_ie
    roam_mode := t.roam_mode
    auth := t.auth
    auth_servers := t.auth_servers
    rateset := t.rateset }

/-- The record the controller creates for a wlan-creation POST
(environment model: the controller assigns the fresh id and normalises
null mandatory fields to its defaults). -/
def cloudNewWlan (fresh : String) (b : WlanBody) : WlanRecord :=
  { id := fresh
    ssid := b.ssid
    band := b.band.getD ""
    interface := b.interface.getD ""
    hostname_ie := b.hostname_ie.getD ""
    auth := b.auth.getD { type := "open", psk := none }
    roam_mode := b.roam_mode
    auth_servers := b.auth_servers
    rateset := b.rateset }

/-- `WLAN.create` (mist_wlan.py:114-154): build the payload, re-probe;
if absent, POST to `sites/:site_id/wlans`, adopt the returned id and
return the reply; if present, log -- the else-branch has no `return`
statement, so the call yields Python `None`. -/
def create (t : WlanState) (d : WlanCloud) :
    Option WlanRecord × WlanState × WlanCloud :=
  let b := build_body t
  match does_exist_on_cloud t d with
  | (false, t1, d1) =>
      let r := cloudNewWlan d1.fresh b
      let d2 := { d1 with
                  wlans := d1.wlans ++ [r]
                  trace := d1.trace ++
                    [ApiCall.post ("sites/" ++ t1.site_id ++ "/wlans") (ReqBody.wlan b)] }
      (some r, { t1 with wlan_id := some r.id }, d2)
  | (true, t1, d1) => (none, t1, d1)

/-- `WLAN.delete` (mist_wlan.py:156-184): re-probe; if present, DELETE
`sites/:site_id/wlans/:wlan_id` (the controller removes the record and
answers 200 exactly when the id existed), log, call the logging-only
`__delete__` hook -- which changes no attribute -- and return the
verb's boolean; if absent, log an error and return `False`. -/
def delete (t : WlanState) (d : WlanCloud) : Bool × WlanState × WlanCloud :=
  match does_exist_on_cloud t d with
  | (true, t1, d1) =>
      let wid := optToStr t1.wlan_id
      let present := d1.wlans.any (fun r => r.id == wid)
      let d2 := { d1 with
                  wlans := d1.wlans.filter (fun r => r.id != wid)
                  trace := d1.trace ++
                    [ApiCall.delete ("sites/" ++ t1.site_id ++ "/wlans/" ++ wid)] }
      (present, t1, d2)
  | (false, t1, d1) => (false, t1, d1)

end WLAN

/-- The local `Token` object (mist_api.py:8-133).  `tmp_token_id` /
`tmp_token_key` are `some` exactly when the attribute is present in the
instance `__dict__` (they are only ever created by a successful
`get_tmp_token`). -/
structure TokenState where
  MASTER_TOKEN : String
  tmp_token_id : Option String
  tmp_token_key : Option String
deriving DecidableEq, Repr

/-- Environment model of the cloud's `/self/apitokens` store: the
ephemeral tokens currently held (id/key pairs) plus the pair the cloud
will mint for the next creation call.  A DELETE of an id answers 200
and removes it exactly when it is held; deleting an unknown id answers
an error status. -/
structure TokenStore where
  tokens : List (String × String)
  fresh_id : String
  fresh_key : String
deriving DecidableEq, Repr

namespace Token

/-- `Token.get_tmp_token` (mist_api.py:83-108) on the successful (200)
path: the cloud mints a fresh ephemeral token and the object stores its
key and id. -/
def get_tmp_token (t : TokenState) (s : TokenStore) : TokenState × TokenStore :=
  ({ t with tmp_token_key := some s.fresh_key, tmp_token_id := some s.fresh_id },
   { s with tokens := s.tokens ++ [(s.fresh_id, s.fresh_key)] })

/-- `Token.delete_tmp_token` (mist_api.py:110-133): if `tmp_token_id`
was never set, raise `ValueError` immediately; otherwise DELETE the id
-- a non-200 answer (in particular for an id the store no longer holds)
raises `ValueError`.  Note the method never clears `tmp_token_id`. -/
def delete_tmp_token (t : TokenState) (s : TokenStore) :
    Except String Unit × TokenStore :=
  match t.tmp_token_id with
  | some tid =>
      if s.tokens.any (fun p => p.1 == tid) then
        (.ok (), { s with tokens := s.tokens.filter (fun p => p.1 != tid) })
      else
        (.error "Error connecting to Mist API! RESPONSE: 404", s)
  | none => (.error "tmp_token_id does not exits.", s)

end Token

/-- The dictionary object stored in the class attribute `AP.map`: keys
mapping to possibly-`None` string values. -/
abbrev MapDict := List (String × Option String)

/-- `d[k] = v` on a `MapDict`, inserting the key when absent. -/
def dictSet (d : MapDict) (k : String) (v : Option String) : MapDict :=
  if d.any (fun p => p.1 == k) then
    d.map (fun p => if p.1 == k then (k, v) else p)
  else d ++ [(k, v)]

/-- `d[k]` on a `MapDict`: `some v` when the key is present. -/
def dictGet (d : MapDict) (k : String) : Option (Option String) :=
  (d.find? (fun p => p.1 == k)).map (fun p => p.2)

/-- A device record in the org inventory listing
(`installer/orgs/:org_id/devices`); `AP._has_been_claimed` only reads
its `mac`. -/
structure InvDevice where
  mac : String
deriving DecidableEq, Repr

/-- A device record in a site's device listing
(`sites/:site_id/devices`), holding exactly the fields
`AP._does_belong_to_site` consumes. -/
structure SiteDevice where
  typ : String
  mac : String
  id : String
  serial : String
  model : String
  map_id : Option String
deriving DecidableEq, Repr

/-- One entry of a claim reply's `inventory_added` list. -/
structure InvAdded where
  id : String
  serial : String
  model : String
deriving DecidableEq, Repr

/-- The provisioning PUT reply fields `AP.provision` consumes. -/
structure ProvResp where
  id : String
  serial : String
  model : String
deriving DecidableEq, Repr

/-- The configuration fields `AP` reads out of `config.data`:
`['site']['name']` and the `['24']`/`['5']` radio blocks are accessed
unconditionally (this model assumes the config file carries them), the
rest through `in` guards. -/
structure APConfig where
  ap_name : Option String
  site_name : String
  claim_code : Option String
  height : Option String
  orientation : Option String
  p24 : Int
  c24 : Int
  p5 : Int
  c5 : Int
  bw5 : Int
deriving DecidableEq, Repr

/-- The class object `AP`: its class-level mutable dictionaries
`map` and `radio_configs` are single objects on the heap, designated by
references into `APWorld`'s heaps. -/
structure APClass where
  map_ref : Nat
  radio_ref : Nat
deriving DecidableEq, Repr

/-- The world an `AP` handle operates in: the mocked remote listings
and call replies, the heap cells backing the class-level dictionaries,
and the observable call trace.  `claimResp` is the `inventory_added`
list of the claim POST's body (`none` = the call failed and
`_verify_response` yielded `None`); `invPutSuccess` is the bulk
inventory PUT's body, outer `none` = failed call, inner `Option` =
presence of its `success` key. -/
structure APWorld where
  inventory : List InvDevice
  siteDevices : List SiteDevice
  claimResp : Option (List InvAdded)
  provResp : Option ProvResp
  radioPutResp : Option BandsDict
  invPutSuccess : Option (Option (List String))
  mapHeap : List MapDict
  radioHeap : List (Option BandsDict)
  trace : List ApiCall
deriving DecidableEq, Repr

/-- The local `AP` handle (mist_ap.py).  The attributes assigned in
`__init__` and the probe/claim/provision methods live on the instance;
`map` and `radio_configs` are never attribute-assigned anywhere in the
class, so Python name lookup resolves them to the class attributes:
the instance therefore carries the class's heap references. -/
structure APState where
  mac : String
  name : Option String
  site_id : Option String
  api_org : String
  site_name : Option String
  claim_code : Option String
  height : Option String
  orientation : Option String
  id : Option String
  serial : Option String
  model : Option String
  cfg : APConfig
  map_ref : Nat
  radio_ref : Nat
deriving DecidableEq, Repr

namespace AP

/-- `AP.__init__` (mist_ap.py:56-87): copy the config fields onto the
instance and execute `self.radio_configs['radio_config'] = {}` -- a
subscript-assignment that mutates the shared class-level dictionary in
place (it is not an attribute assignment). -/
def init (mac site_id api_org : String) (cfg : APConfig) (cls : APClass)
    (w : APWorld) : APState × APWorld :=
  let a : APState :=
    { mac := mac, name := cfg.ap_name, site_id := some site_id
      api_org := api_org, site_name := some cfg.site_name
      claim_code := cfg.claim_code, height := cfg.height
      orientation := cfg.orientation, id := none, serial := none
      model := none, cfg := cfg, map_ref := cls.map_ref
      radio_ref := cls.radio_ref }
  (a, { w with radioHeap :=
          w.radioHeap.set cls.radio_ref (some { band_24 := none, band_5 := none }) })

/-- `AP._has_been_claimed` (mist_ap.py:89-109): GET the org inventory
and scan it for the handle's MAC. -/
def has_been_claimed (a : APState) (org_id : String) (w : APWorld) :
    Bool × APWorld :=
  (w.inventory.any (fun dev => dev.mac == a.mac),
   { w with trace := w.trace ++
       [ApiCall.get ("installer/orgs/" ++ org_id ++ "/devices")] })

/-- `AP._does_belong_to_site` (mist_ap.py:111-139): GET the site's
device list and scan for the first `"ap"`-typed record with the
handle's MAC; on a match adopt id/serial/model and write the record's
`map_id` under key `'id'` of the shared `map` dictionary, then return
`True`; else return `False`. -/
def does_belong_to_site (a : APState) (w : APWorld) :
    Bool × APState × APWorld :=
  let w1 := { w with trace := w.trace ++
      [ApiCall.get ("sites/" ++ optToStr a.site_id ++ "/devices")] }
  match w.siteDevices.find? (fun dev => dev.typ == "ap" && dev.mac == a.mac) with
  | some dev =>
      (true,
       { a with id := some dev.id, serial := some dev.serial, model := some dev.model },
       { w1 with mapHeap := w1.mapHeap.set a.map_ref (dictSet (w1.mapHeap.getD a.map_ref []) "id" dev.map_id) })
  | none => (false, a, w1)

/-- `AP.claim` (mist_ap.py:141-175): probe the inventory -- note using
`self.api.org_id`, not the `org_id` argument -- and when the MAC is
absent: a `None` claim code raises; otherwise POST `[claim_code]` to
`orgs/:org_id/inventory` and adopt `inventory_added[0]`'s
id/serial/model (a failed call or an empty list raises at the
subscript).  When the MAC is already in the inventory the method does
nothing. -/
def claim (a : APState) (org_id : String) (w : APWorld) :
    Except String APState × APWorld :=
  match has_been_claimed a a.api_org w with
  | (false, w1) =>
      match a.claim_code with
      | some cc =>
          let w2 := { w1 with trace := w1.trace ++
            [ApiCall.post ("orgs/" ++ org_id ++ "/inventory") (ReqBody.claimCodes [cc])] }
          match w2.claimResp with
          | none => (.error "TypeError: NoneType is not subscriptable", w2)
          | some [] => (.error "IndexError: list index out of range", w2)
          | some (x :: _) =>
              (.ok { a with id := some x.id, serial := some x.serial, model := some x.model },
               w2)
      | none => (.error "No claim code has been provided to claim this AP.", w1)
  | (true, w1) => (.ok a, w1)

/-- The provisioning payload of `AP.provision` (mist_ap.py:199-207),
built before the probe: `map_id` is keyed in when the shared `map`
dictionary is non-empty and holds an `'id'` key; `height` and
`orientation` when truthy (non-`None` and non-empty). -/
def provision_body (a : APState) (ap_name : String) (mapd : MapDict) : ProvBody :=
  { name := ap_name
    site_id := a.site_id
    map_id := if mapd.isEmpty then none else dictGet mapd "id"
    height := match a.height with
              | some h => if h == "" then none else some h
              | none => none
    orientation := match a.orientation with
                   | some o => if o == "" then none else some o
                   | none => none }

/-- `AP.provision` (mist_ap.py:177-219): build the payload, probe the
site's device list; when the AP is not yet assigned, PUT the payload to
`installer/orgs/:org_id/devices/:mac` and adopt the reply's
id/serial/model (a failed call raises at the subscript); when it is
already assigned, log and do nothing further. -/
def provision (a : APState) (ap_name : String) (w : APWorld) :
    Except String APState × APWorld :=
  let b := provision_body a ap_name (w.mapHeap.getD a.map_ref [])
  match does_belong_to_site a w with
  | (false, a1, w1) =>
      let w2 := { w1 with trace := w1.trace ++
        [ApiCall.put ("installer/orgs/" ++ a.api_org ++ "/devices/" ++ a.mac)
          (ReqBody.prov b)] }
      match w2.provResp with
      | none => (.error "TypeError: NoneType is not subscriptable", w2)
      | some r =>
          (.ok { a1 with id := some r.id, serial := some r.serial, model := some r.model },
           w2)
  | (true, a1, w1) => (.ok a1, w1)

/-- `AP.configure_radios` (mist_ap.py:221-258): re-probe the site
assignment; when assigned, write both band blocks into the shared
`radio_configs['radio_config']` dictionary (a missing `'radio_config'`
key would raise), PUT the whole dictionary to
`sites/:site_id/devices/:device_id`, then log fields of the reply --
which raises when the call failed or the reply lacks the band keys;
when not assigned, raise. -/
def configure_radios (a : APState) (w : APWorld) :
    Except String APState × APWorld :=
  match does_belong_to_site a w with
  | (true, a1, w1) =>
      match w1.radioHeap.getD a1.radio_ref none with
      | none => (.error "KeyError: radio_config", w1)
      | some _ =>
          let bands : BandsDict :=
            { band_24 := some { power := a1.cfg.p24, channel := a1.cfg.c24 }
              band_5 := some { power := a1.cfg.p5, channel := a1.cfg.c5,
                               bandwidth := a1.cfg.bw5 } }
          let w2 := { w1 with
            radioHeap := w1.radioHeap.set a1.radio_ref (some bands)
            trace := w1.trace ++
              [ApiCall.put ("sites/" ++ optToStr a1.site_id ++ "/devices/" ++ optToStr a1.id)
                (ReqBody.radio (some bands))] }
          match w2.radioPutResp with
          | none => (.error "TypeError: NoneType is not subscriptable", w2)
          | some resp =>
              match resp.band_24, resp.band_5 with
              | some _, some _ => (.ok a1, w2)
              | _, _ => (.error "KeyError", w2)
  | (false, a1, w1) =>
      (.error ("AP " ++ optToStr a1.name ++ " does not belong to a site."), w1)

/-- `AP.unassign` (mist_ap.py:260-292): re-probe the site assignment;
when assigned, PUT `{'op': 'unassign', 'macs': [mac]}` to
`orgs/:org_id/inventory` and read `response['success'][0]` -- a failed
call, a missing `success` key or an empty list raises at the
subscripts; when that first element equals the MAC, clear `site_id` and
`site_name`, otherwise log a (non-fatal) error and leave them; when not
assigned, do nothing. -/
def unassign (a : APState) (org_id : String) (w : APWorld) :
    Except String APState × APWorld :=
  match does_belong_to_site a w with
  | (true, a1, w1) =>
      let w2 := { w1 with trace := w1.trace ++
        [ApiCall.put ("orgs/" ++ org_id ++ "/inventory") (ReqBody.inv "unassign" [a1.mac])] }
      match w2.invPutSuccess with
      | none => (.error "TypeError: NoneType is not subscriptable", w2)
      | some none => (.error "KeyError: success", w2)
      | some (some []) => (.error "IndexError: list index out of range", w2)
      | some (some (m :: _)) =>
          if m == a1.mac then
            (.ok { a1 with site_id := none, site_name := none }, w2)
          else (.ok a1, w2)
  | (false, a1, w1) => (.ok a1, w1)

end AP

/-! ## Concrete fixtures shared by witnesses and counterexamples -/

/-- A pending-creation site handle named HQ. -/
def sampleSite : SiteState :=
  { site_id := none, name := "HQ", org_id := "o1", timezone := some "EST"
    country_code := none, address := none, lat := none, lng := none
    rf_template_id := none, sitegroup_ids := none, has_rf_fields := true }

/-- An org with no sites. -/
def emptySiteCloud : SiteCloud := { sites := [], fresh := "site-1", trace := [] }

/-- A remote site record named HQ. -/
def sampleSiteRecord : SiteRecord :=
  { id := "s1", name := "HQ", timezone := some "EST", country_code := some "US"
    address := some "100 Main", latlng := some (45, -73) }

/-- An org whose listing holds the HQ record. -/
def cloudWithHQ : SiteCloud := { sites := [sampleSiteRecord], fresh := "site-2", trace := [] }

/-- A pending-creation WLAN handle with ssid corp. -/
def sampleWlan : WlanState :=
  { wlan_id := none, ssid := "corp", site_id := "st1", band := some "both"
    interface := none, hostname_ie := none, auth := none, auth_servers := none
    roam_mode := none, rateset := none }

/-- A site with no wlans. -/
def emptyWlanCloud : WlanCloud := { wlans := [], fresh := "w1", trace := [] }

/-- A remote WLAN record with ssid corp. -/
def sampleWlanRecord : WlanRecord :=
  { id := "w9", ssid := "corp", band := "5", interface := "eth0"
    hostname_ie := "off", auth := { type := "psk", psk := some "pw" }
    roam_mode := none, auth_servers := some ["10.0.0.9"], rateset := some "ht" }

/-- A site whose wlan listing holds the corp record. -/
def cloudWithCorp : WlanCloud := { wlans := [sampleWlanRecord], fresh := "w2", trace := [] }

/-- An eap-typed `wlan_config` whose `auth_servers` key holds an empty
sequence. -/
def eapConfig : WlanConfig :=
  { band := some "both", interface := none, hostname_ie := none
    roam_mode := none, rateset := none
    auth := some { type := "eap", psk := none }
    auth_servers := some [] }

/-- A token object on which acquire never succeeded. -/
def tokenNever : TokenState :=
  { MASTER_TOKEN := "master", tmp_token_id := none, tmp_token_key := none }

/-- An apitoken store holding no ephemeral token yet. -/
def tokenStore0 : TokenStore := { tokens := [], fresh_id := "tid1", fresh_key := "k1" }

/-- A configuration document for the sample AP. -/
def apCfg : APConfig :=
  { ap_name := some "ap-1", site_name := "HQ", claim_code := some "CODE-1"
    height := some "3", orientation := some "N"
    p24 := 10, c24 := 6, p5 := 12, c5 := 36, bw5 := 40 }

/-- The sample AP handle. -/
def sampleAP : APState :=
  { mac := "aa:bb", name := some "ap-1", site_id := some "st1", api_org := "o1"
    site_name := some "HQ", claim_code := some "CODE-1", height := some "3"
    orientation := some "N", id := none, serial := none, model := none
    cfg := apCfg, map_ref := 0, radio_ref := 0 }

/-- The sample AP with no claim code configured. -/
def sampleAPNoCode : APState := { sampleAP with claim_code := none }

/-- The sample AP with an empty-string claim code. -/
def sampleAPEmptyCode : APState := { sampleAP with claim_code := some "" }

/-- The sample AP's record in its site's device listing. -/
def apDev : SiteDevice :=
  { typ := "ap", mac := "aa:bb", id := "dev1", serial := "ser1"
    model := "mod1", map_id := some "map1" }

/-- A world where the sample AP is unclaimed; the claim POST would
answer with one `inventory_added` entry. -/
def apWorldUnclaimed : APWorld :=
  { inventory := [], siteDevices := []
    claimResp := some [{ id := "dev1", serial := "ser1", model := "mod1" }]
    provResp := none, radioPutResp := none, invPutSuccess := none
    mapHeap := [[]], radioHeap := [some { band_24 := none, band_5 := none }]
    trace := [] }

/-- A world where the sample AP is claimed into the inventory but not
assigned to any site; the provisioning PUT would succeed. -/
def apWorldClaimedOnly : APWorld :=
  { inventory := [{ mac := "aa:bb" }], siteDevices := []
    claimResp := none
    provResp := some { id := "dev1", serial := "ser1", model := "mod1" }
    radioPutResp := none, invPutSuccess := none
    mapHeap := [[]], radioHeap := [some { band_24 := none, band_5 := none }]
    trace := [] }

/-- A world where the sample AP is assigned to its site; the bulk
inventory PUT's reply is a parameter. -/
def apWorldAssigned (resp : Option (Option (List String))) : APWorld :=
  { inventory := [{ mac := "aa:bb" }], siteDevices := [apDev]
    claimResp := none, provResp := none, radioPutResp := none
    invPutSuccess := resp
    mapHeap := [[]], radioHeap := [some { band_24 := none, band_5 := none }]
    trace := [] }

/-- The class object with both shared dictionaries at heap index 0. -/
def apClass0 : APClass := { map_ref := 0, radio_ref := 0 }

/-- A world for exercising two AP constructions: one heap cell per
class dictionary, and a site listing holding the first AP's record. -/
def apWorldC10 : APWorld :=
  { inventory := [], siteDevices := [apDev]
    claimResp := none, provResp := none, radioPutResp := none
    invPutSuccess := none
    mapHeap := [[]], radioHeap := [none], trace := [] }

/-! ## General helper lemmas -/

/-- A linear scan over an appended list continues into the suffix when
the prefix holds no match. -/
theorem find?_append_of_none {α : Type} (p : α → Bool) (l₁ l₂ : List α)
    (h : l₁.find? p = none) : (l₁ ++ l₂).find? p = l₂.find? p := by
  induction l₁ with
  | nil => rfl
  | cons a t ih =>
    cases hp : p a with
    | true => rw [List.find?_cons_of_pos _ hp] at h; exact absurd h (by simp)
    | false =>
      rw [List.find?_cons_of_neg _ (by simp [hp])] at h
      rw [List.cons_append, List.find?_cons_of_neg _ (by simp [hp])]
      exact ih h

/-- After filtering out every element with a given key, no element with
that key is left. -/
theorem any_filter_bne {α : Type} (f : α → String) (k : String) (l : List α) :
    ((l.filter (fun x => f x != k)).any (fun x => f x == k)) = false := by
  rw [List.any_eq_false]
  intro x hx
  rw [List.mem_filter] at hx
  simpa using hx.2

/-- Reading back a freshly written heap cell. -/
theorem getD_set_self {α : Type} (l : List α) (i : Nat) (v d : α)
    (h : i < l.length) : (l.set i v).getD i d = v := by
  induction l generalizing i with
  | nil => simp at h
  | cons a t ih =>
    cases i with
    | zero => rfl
    | succ n =>
      have h2 : n < t.length := Nat.lt_of_succ_lt_succ h
      show (t.set n v).getD n d = v
      exact ih n h2

/-! ## Reduction lemmas for the entity operations -/

theorem site_probe_hit (s : SiteState) (c : SiteCloud) (r : SiteRecord)
    (h : c.sites.find? (fun x => x.name == s.name) = some r) :
    Site.does_exist_on_cloud s c =
      (true, Site.adopt s r,
       { c with trace := c.trace ++ [ApiCall.get ("orgs/" ++ s.org_id ++ "/sites")] }) := by
  simp [Site.does_exist_on_cloud, h]

theorem site_probe_miss (s : SiteState) (c : SiteCloud)
    (h : c.sites.find? (fun x => x.name == s.name) = none) :
    Site.does_exist_on_cloud s c =
      (false, s,
       { c with trace := c.trace ++ [ApiCall.get ("orgs/" ++ s.org_id ++ "/sites")] }) := by
  simp [Site.does_exist_on_cloud, h]

theorem site_create_when_absent (s : SiteState) (c : SiteCloud)
    (h : c.sites.find? (fun x => x.name == s.name) = none) :
    Site.create s c =
      (Site.CreateRes.created (Site.cloudNewSite c.fresh (Site.build_body s)),
       { s with site_id := some c.fresh },
       { c with sites := c.sites ++ [Site.cloudNewSite c.fresh (Site.build_body s)]
                trace := c.trace ++
                  [ApiCall.get ("orgs/" ++ s.org_id ++ "/sites"),
                   ApiCall.post ("orgs/" ++ s.org_id ++ "/sites")
                     (ReqBody.site (Site.build_body s))] }) := by
  rw [Site.create, site_probe_miss s c h]
  simp [Site.cloudNewSite]

theorem site_create_when_present (s : SiteState) (c : SiteCloud) (r : SiteRecord)
    (h : c.sites.find? (fun x => x.name == s.name) = some r) :
    Site.create s c =
      (Site.CreateRes.existing (some r.id), Site.adopt s r,
       { c with trace := c.trace ++ [ApiCall.get ("orgs/" ++ s.org_id ++ "/sites")] }) := by
  rw [Site.create, site_probe_hit s c r h]
  simp [Site.adopt]

theorem site_delete_when_present (s : SiteState) (c : SiteCloud) (r : SiteRecord)
    (h : c.sites.find? (fun x => x.name == s.name) = some r) :
    Site.delete s c =
      (true, Site.adopt s r,
       { c with sites := c.sites.filter (fun x => x.id != r.id)
                trace := c.trace ++
                  [ApiCall.get ("orgs/" ++ s.org_id ++ "/sites"),
                   ApiCall.delete ("sites/" ++ r.id)] }) := by
  have hany : c.sites.any (fun x => x.id == r.id) = true := by
    rw [List.any_eq_true]
    exact ⟨r, List.mem_of_find?_eq_some h, by simp⟩
  rw [Site.delete, site_probe_hit s c r h]
  simp [Site.adopt, optToStr, hany]

theorem site_delete_when_absent (s : SiteState) (c : SiteCloud)
    (h : c.sites.find? (fun x => x.name == s.name) = none) :
    Site.delete s c =
      (false, s,
       { c with trace := c.trace ++ [ApiCall.get ("orgs/" ++ s.org_id ++ "/sites")] }) := by
  rw [Site.delete, site_probe_miss s c h]

theorem wlan_probe_hit (t : WlanState) (d : WlanCloud) (r : WlanRecord)
    (h : d.wlans.find? (fun x => x.ssid == t.ssid) = some r) :
    WLAN.does_exist_on_cloud t d =
      (true, WLAN.adopt t r,
       { d with trace := d.trace ++ [ApiCall.get ("sites/" ++ t.site_id ++ "/wlans")] }) := by
  simp [WLAN.does_exist_on_cloud, h]

theorem wlan_probe_miss (t : WlanState) (d : WlanCloud)
    (h : d.wlans.find? (fun x => x.ssid == t.ssid) = none) :
    WLAN.does_exist_on_cloud t d =
      (false, t,
       { d with trace := d.trace ++ [ApiCall.get ("sites/" ++ t.site_id ++ "/wlans")] }) := by
  simp [WLAN.does_exist_on_cloud, h]

theorem wlan_create_when_absent (t : WlanState) (d : WlanCloud)
    (h : d.wlans.find? (fun x => x.ssid == t.ssid) = none) :
    WLAN.create t d =
      (some (WLAN.cloudNewWlan d.fresh (WLAN.build_body t)),
       { t with wlan_id := some d.fresh },
       { d with wlans := d.wlans ++ [WLAN.cloudNewWlan d.fresh (WLAN.build_body t)]
                trace := d.trace ++
                  [ApiCall.get ("sites/" ++ t.site_id ++ "/wlans"),
                   ApiCall.post ("sites/" ++ t.site_id ++ "/wlans")
                     (ReqBody.wlan (WLAN.build_body t))] }) := by
  rw [WLAN.create, wlan_probe_miss t d h]
  simp [WLAN.cloudNewWlan]

theorem wlan_create_when_present (t : WlanState) (d : WlanCloud) (r : WlanRecord)
    (h : d.wlans.find? (fun x => x.ssid == t.ssid) = some r) :
    WLAN.create t d =
      (none, WLAN.adopt t r,
       { d with trace := d.trace ++ [ApiCall.get ("sites/" ++ t.site_id ++ "/wlans")] }) := by
  rw [WLAN.create, wlan_probe_hit t d r h]

theorem wlan_delete_when_present (t : WlanState) (d : WlanCloud) (r : WlanRecord)
    (h : d.wlans.find? (fun x => x.ssid == t.ssid) = some r) :
    WLAN.delete t d =
      (true, WLAN.adopt t r,
       { d with wlans := d.wlans.filter (fun x => x.id != r.id)
                trace := d.trace ++
                  [ApiCall.get ("sites/" ++ t.site_id ++ "/wlans"),
                   ApiCall.delete ("sites/" ++ t.site_id ++ "/wlans/" ++ r.id)] }) := by
  have hany : d.wlans.any (fun x => x.id == r.id) = true := by
    rw [List.any_eq_true]
    exact ⟨r, List.mem_of_find?_eq_some h, by simp⟩
  rw [WLAN.delete, wlan_probe_hit t d r h]
  simp [WLAN.adopt, optToStr, hany]

theorem wlan_delete_when_absent (t : WlanState) (d : WlanCloud)
    (h : d.wlans.find? (fun x => x.ssid == t.ssid) = none) :
    WLAN.delete t d =
      (false, t,
       { d with trace := d.trace ++ [ApiCall.get ("sites/" ++ t.site_id ++ "/wlans")] }) := by
  rw [WLAN.delete, wlan_probe_miss t d h]

theorem countPosts_append (l₁ l₂ : List ApiCall) :
    countPosts (l₁ ++ l₂) = countPosts l₁ + countPosts l₂ := by
  induction l₁ with
  | nil => simp [countPosts]
  | cons a t ih => cases a <;> (simp [countPosts, ih]; try omega)

theorem countPuts_append (l₁ l₂ : List ApiCall) :
    countPuts (l₁ ++ l₂) = countPuts l₁ + countPuts l₂ := by
  induction l₁ with
  | nil => simp [countPuts]
  | cons a t ih => cases a <;> (simp [countPuts, ih]; try omega)

/-! ## C2: verb contract of the transport layer -/

/-- C2 counterexample.  The claim states that on a failure status
DELETE "returns false after logging detail".  For a 404 whose body has
no `'message'` key, `_verify_delete_response` instead raises `KeyError`
while interpolating the log line, so the call does not return `False`
(nor anything else). -/
theorem c2_counterexample :
    API.delete { status := 404, body := JVal.obj [] } = .error "KeyError: message"
    ∧ API.delete { status := 404, body := JVal.obj [] } ≠ .ok false := by
  refine ⟨rfl, ?_⟩
  intro h
  exact Except.noConfusion h

/-- C2 (amended): on a failure status (>= 400) `get`, `post` and `put`
return an absent value after recording the error detail; `delete`
returns true only on the exact status 200, and on any other status
returns false after logging the body's `'message'` detail -- provided
the failure body carries a `'message'` key (a failure body without it
raises `KeyError` from the logging access instead of returning). -/
theorem c2_verb_contract (r : HttpResponse) (h : 400 ≤ r.status)
    (r2 : HttpResponse) (h2 : r2.status ≠ 200) (m : JVal)
    (hm : r2.body.lookup "message" = some m) :
    API.get r = none
    ∧ API.post r = none
    ∧ API.put r = none
    ∧ API.delete r2 = .ok false
    ∧ (∀ r3 : HttpResponse, API.delete r3 = .ok true ↔ r3.status = 200) := by
  refine ⟨?_, ?_, ?_, ?_, ?_⟩
  · simp [API.get, verify_response, h]
  · simp [API.post, verify_response, h]
  · simp [API.put, verify_response, h]
  · simp [API.delete, verify_delete_response, h2, hm]
  · intro r3
    by_cases hc : r3.status = 200
    · simp [API.delete, verify_delete_response, hc]
    · cases hl : r3.body.lookup "message" <;>
        simp [API.delete, verify_delete_response, hc, hl]

/-- C2 witness: concrete responses discharging the hypotheses of
`c2_verb_contract`. -/
theorem c2_witness :
    400 ≤ (404 : Nat)
    ∧ (404 : Nat) ≠ 200
    ∧ (JVal.obj [("message", JVal.str "not found")]).lookup "message"
        = some (JVal.str "not found")
    ∧ API.get { status := 404, body := JVal.obj [] } = none
    ∧ API.delete { status := 404, body := JVal.obj [("message", JVal.str "not found")] }
        = .ok false :=
  ⟨by decide, by decide, rfl,
   (c2_verb_contract { status := 404, body := JVal.obj [] } (by decide)
      { status := 404, body := JVal.obj [("message", JVal.str "not found")] } (by decide)
      (JVal.str "not found") rfl).1,
   (c2_verb_contract { status := 404, body := JVal.obj [] } (by decide)
      { status := 404, body := JVal.obj [("message", JVal.str "not found")] } (by decide)
      (JVal.str "not found") rfl).2.2.2.1⟩

/-! ## C4: probe-adopt correctness -/

/-- C4: when the remote listing's linear scan finds a record whose
natural key matches the handle's key (site name for `Site`, ssid for
`WLAN`), the probe returns true and afterwards every optional field of
the local handle equals that remote record's field; when no record
matches, the probe returns false. -/
theorem c4_probe_adopt
    (s : SiteState) (c : SiteCloud) (r : SiteRecord)
    (hr : c.sites.find? (fun x => x.name == s.name) = some r)
    (s0 : SiteState) (c0 : SiteCloud)
    (h0 : c0.sites.find? (fun x => x.name == s0.name) = none)
    (t : WlanState) (d : WlanCloud) (q : WlanRecord)
    (hq : d.wlans.find? (fun x => x.ssid == t.ssid) = some q)
    (t0 : WlanState) (d0 : WlanCloud)
    (h1 : d0.wlans.find? (fun x => x.ssid == t0.ssid) = none) :
    (Site.does_exist_on_cloud s c).1 = true
    ∧ (Site.does_exist_on_cloud s c).2.1.site_id = some r.id
    ∧ (Site.does_exist_on_cloud s c).2.1.timezone = r.timezone
    ∧ (Site.does_exist_on_cloud s c).2.1.country_code = r.country_code
    ∧ (Site.does_exist_on_cloud s c).2.1.address = r.address
    ∧ (Site.does_exist_on_cloud s c).2.1.lat = r.latlng.map Prod.fst
    ∧ (Site.does_exist_on_cloud s c).2.1.lng = r.latlng.map Prod.snd
    ∧ (Site.does_exist_on_cloud s0 c0).1 = false
    ∧ (WLAN.does_exist_on_cloud t d).1 = true
    ∧ (WLAN.does_exist_on_cloud t d).2.1.wlan_id = some q.id
    ∧ (WLAN.does_exist_on_cloud t d).2.1.band = some q.band
    ∧ (WLAN.does_exist_on_cloud t d).2.1.interface = some q.interface
    ∧ (WLAN.does_exist_on_cloud t d).2.1.hostname_ie = some q.hostname_ie
    ∧ (WLAN.does_exist_on_cloud t d).2.1.roam_mode = q.roam_mode
    ∧ (WLAN.does_exist_on_cloud t d).2.1.auth = some q.auth
    ∧ (WLAN.does_exist_on_cloud t d).2.1.auth_servers = q.auth_servers
    ∧ (WLAN.does_exist_on_cloud t d).2.1.rateset = q.rateset
    ∧ (WLAN.does_exist_on_cloud t0 d0).1 = false := by
  rw [site_probe_hit s c r hr, site_probe_miss s0 c0 h0,
      wlan_probe_hit t d q hq, wlan_probe_miss t0 d0 h1]
  simp [Site.adopt, WLAN.adopt]

/-- C4 witness: concrete listings discharging the hypotheses of
`c4_probe_adopt`. -/
theorem c4_witness :
    cloudWithHQ.sites.find? (fun x => x.name == sampleSite.name) = some sampleSiteRecord
    ∧ emptySiteCloud.sites.find? (fun x => x.name == sampleSite.name) = none
    ∧ cloudWithCorp.wlans.find? (fun x => x.ssid == sampleWlan.ssid) = some sampleWlanRecord
    ∧ emptyWlanCloud.wlans.find? (fun x => x.ssid == sampleWlan.ssid) = none
    ∧ (Site.does_exist_on_cloud sampleSite cloudWithHQ).1 = true
    ∧ (Site.does_exist_on_cloud sampleSite cloudWithHQ).2.1.site_id
        = some sampleSiteRecord.id := by
  have h := c4_probe_adopt sampleSite cloudWithHQ sampleSiteRecord rfl
    sampleSite emptySiteCloud rfl
    sampleWlan cloudWithCorp sampleWlanRecord rfl
    sampleWlan emptyWlanCloud rfl
  exact ⟨rfl, rfl, rfl, rfl, h.1, h.2.1⟩

/-! ## C1: create-twice idempotence -/

/-- C1 counterexample.  The claim states that for a WLAN the second
`create()` call "logs and returns the existing identity".  Starting
from a site with no wlans, the first call creates the record (id `w1`)
and the second call takes the already-exists branch of
`WLAN.create` -- whose `else` arm has no `return` statement -- so the
second call returns Python `None`, not the existing identity (which the
handle still holds as `w1`). -/
theorem c1_counterexample :
    (WLAN.create (WLAN.create sampleWlan emptyWlanCloud).2.1
        (WLAN.create sampleWlan emptyWlanCloud).2.2).1 = none
    ∧ (WLAN.create sampleWlan emptyWlanCloud).2.1.wlan_id = some "w1"
    ∧ (WLAN.create (WLAN.create sampleWlan emptyWlanCloud).2.1
        (WLAN.create sampleWlan emptyWlanCloud).2.2).2.1.wlan_id = some "w1" :=
  ⟨rfl, rfl, rfl⟩

/-- C1 (amended): calling `create()` twice in sequence on the same
entity issues exactly one creation (POST) call, the handle holds the
identical remote identifier after both calls, and the second call
mutates nothing remote.  For `Site` both calls return a dict whose
`'id'` entry is that identifier; for `WLAN` the first call returns the
created record but the second call returns no value (`None`), its
already-exists branch having no `return` statement. -/
theorem c1_create_idempotent
    (s : SiteState) (c : SiteCloud)
    (hs : c.sites.find? (fun x => x.name == s.name) = none)
    (t : WlanState) (d : WlanCloud)
    (ht : d.wlans.find? (fun x => x.ssid == t.ssid) = none) :
    (Site.create s c).1.idOf = some c.fresh
    ∧ (Site.create (Site.create s c).2.1 (Site.create s c).2.2).1.idOf = some c.fresh
    ∧ (Site.create (Site.create s c).2.1 (Site.create s c).2.2).2.1.site_id = some c.fresh
    ∧ countPosts (Site.create (Site.create s c).2.1 (Site.create s c).2.2).2.2.trace
        = countPosts c.trace + 1
    ∧ (Site.create (Site.create s c).2.1 (Site.create s c).2.2).2.2.sites
        = (Site.create s c).2.2.sites
    ∧ (WLAN.create t d).1 = some (WLAN.cloudNewWlan d.fresh (WLAN.build_body t))
    ∧ (WLAN.create t d).2.1.wlan_id = some d.fresh
    ∧ (WLAN.create (WLAN.create t d).2.1 (WLAN.create t d).2.2).1 = none
    ∧ (WLAN.create (WLAN.create t d).2.1 (WLAN.create t d).2.2).2.1.wlan_id = some d.fresh
    ∧ countPosts (WLAN.create (WLAN.create t d).2.1 (WLAN.create t d).2.2).2.2.trace
        = countPosts d.trace + 1
    ∧ (WLAN.create (WLAN.create t d).2.1 (WLAN.create t d).2.2).2.2.wlans
        = (WLAN.create t d).2.2.wlans := by
  have h1 := site_create_when_absent s c hs
  have hps : ((Site.cloudNewSite c.fresh (Site.build_body s)).name == s.name) = true := by
    simp [Site.cloudNewSite, Site.build_body]
  have hf2 : ((c.sites ++ [Site.cloudNewSite c.fresh (Site.build_body s)]).find?
        (fun x => x.name == s.name)) = some (Site.cloudNewSite c.fresh (Site.build_body s)) := by
    rw [find?_append_of_none _ _ _ hs]
    simp [List.find?, hps]
  have h2 := site_create_when_present { s with site_id := some c.fresh }
      { c with sites := c.sites ++ [Site.cloudNewSite c.fresh (Site.build_body s)]
               trace := c.trace ++
                 [ApiCall.get ("orgs/" ++ s.org_id ++ "/sites"),
                  ApiCall.post ("orgs/" ++ s.org_id ++ "/sites")
                    (ReqBody.site (Site.build_body s))] }
      (Site.cloudNewSite c.fresh (Site.build_body s)) hf2
  have h3 := wlan_create_when_absent t d ht
  have hpt : ((WLAN.cloudNewWlan d.fresh (WLAN.build_body t)).ssid == t.ssid) = true := by
    simp [WLAN.cloudNewWlan, WLAN.build_body]
  have hf4 : ((d.wlans ++ [WLAN.cloudNewWlan d.fresh (WLAN.build_body t)]).find?
        (fun x => x.ssid == t.ssid)) = some (WLAN.cloudNewWlan d.fresh (WLAN.build_body t)) := by
    rw [find?_append_of_none _ _ _ ht]
    simp [List.find?, hpt]
  have h4 := wlan_create_when_present { t with wlan_id := some d.fresh }
      { d with wlans := d.wlans ++ [WLAN.cloudNewWlan d.fresh (WLAN.build_body t)]
               trace := d.trace ++
                 [ApiCall.get ("sites/" ++ t.site_id ++ "/wlans"),
                  ApiCall.post ("sites/" ++ t.site_id ++ "/wlans")
                    (ReqBody.wlan (WLAN.build_body t))] }
      (WLAN.cloudNewWlan d.fresh (WLAN.build_body t)) hf4
  simp only [h1, h2, h3, h4]
  simp [Site.CreateRes.idOf, Site.adopt, Site.cloudNewSite, WLAN.adopt, WLAN.cloudNewWlan,
        countPosts_append, countPosts]

/-- C1 witness: concrete empty clouds discharging the hypotheses of
`c1_create_idempotent`. -/
theorem c1_witness :
    emptySiteCloud.sites.find? (fun x => x.name == sampleSite.name) = none
    ∧ emptyWlanCloud.wlans.find? (fun x => x.ssid == sampleWlan.ssid) = none
    ∧ (Site.create sampleSite emptySiteCloud).1.idOf = some "site-1"
    ∧ (Site.create (Site.create sampleSite emptySiteCloud).2.1
        (Site.create sampleSite emptySiteCloud).2.2).1.idOf = some "site-1" := by
  have h := c1_create_idempotent sampleSite emptySiteCloud rfl sampleWlan emptyWlanCloud rfl
  exact ⟨rfl, rfl, h.1, h.2.1⟩

/-! ## C5: delete behaviour -/

/-- C5 counterexample.  The claim states that `delete()` "invalidates
the local handle's identity fields regardless of the call's outcome".
Deleting the existing HQ site succeeds, yet the handle's `site_id`
still holds the remote identity `s1` afterwards: the `__delete__` hook
called at mist_site.py:240 only emits a log line and clears nothing. -/
theorem c5_counterexample :
    (Site.delete sampleSite cloudWithHQ).1 = true
    ∧ (Site.delete sampleSite cloudWithHQ).2.1.site_id = some "s1"
    ∧ (Site.delete sampleSite cloudWithHQ).2.1.site_id ≠ none
    ∧ (WLAN.delete sampleWlan cloudWithCorp).1 = true
    ∧ (WLAN.delete sampleWlan cloudWithCorp).2.1.wlan_id = some "w9" := by
  refine ⟨rfl, rfl, ?_, rfl, rfl⟩
  intro h
  rw [show (Site.delete sampleSite cloudWithHQ).2.1.site_id = some "s1" from rfl] at h
  exact Option.noConfusion h

/-- C5 (amended): `delete()` re-probes; if the entity exists remotely it
issues the DELETE call and returns the DELETE verb's boolean, but the
local handle's identity fields remain set (holding the probed remote
id) -- the teardown hook only logs; if the entity does not exist it
logs an error and returns false, changing neither handle nor cloud
records. -/
theorem c5_delete_behaviour
    (s : SiteState) (c : SiteCloud) (r : SiteRecord)
    (hr : c.sites.find? (fun x => x.name == s.name) = some r)
    (s0 : SiteState) (c0 : SiteCloud)
    (h0 : c0.sites.find? (fun x => x.name == s0.name) = none)
    (t : WlanState) (d : WlanCloud) (q : WlanRecord)
    (hq : d.wlans.find? (fun x => x.ssid == t.ssid) = some q)
    (t0 : WlanState) (d0 : WlanCloud)
    (h1 : d0.wlans.find? (fun x => x.ssid == t0.ssid) = none) :
    (Site.delete s c).1 = true
    ∧ (Site.delete s c).2.2.trace
        = c.trace ++ [ApiCall.get ("orgs/" ++ s.org_id ++ "/sites"),
                      ApiCall.delete ("sites/" ++ r.id)]
    ∧ (Site.delete s c).2.2.sites = c.sites.filter (fun x => x.id != r.id)
    ∧ (Site.delete s c).2.1.site_id = some r.id
    ∧ (Site.delete s0 c0).1 = false
    ∧ (Site.delete s0 c0).2.1 = s0
    ∧ (Site.delete s0 c0).2.2.sites = c0.sites
    ∧ (WLAN.delete t d).1 = true
    ∧ (WLAN.delete t d).2.2.trace
        = d.trace ++ [ApiCall.get ("sites/" ++ t.site_id ++ "/wlans"),
                      ApiCall.delete ("sites/" ++ t.site_id ++ "/wlans/" ++ q.id)]
    ∧ (WLAN.delete t d).2.2.wlans = d.wlans.filter (fun x => x.id != q.id)
    ∧ (WLAN.delete t d).2.1.wlan_id = some q.id
    ∧ (WLAN.delete t0 d0).1 = false
    ∧ (WLAN.delete t0 d0).2.1 = t0
    ∧ (WLAN.delete t0 d0).2.2.wlans = d0.wlans := by
  rw [site_delete_when_present s c r hr, site_delete_when_absent s0 c0 h0,
      wlan_delete_when_present t d q hq, wlan_delete_when_absent t0 d0 h1]
  simp [Site.adopt, WLAN.adopt]

/-- C5 witness: concrete listings discharging the hypotheses of
`c5_delete_behaviour`. -/
theorem c5_witness :
    cloudWithHQ.sites.find? (fun x => x.name == sampleSite.name) = some sampleSiteRecord
    ∧ emptySiteCloud.sites.find? (fun x => x.name == sampleSite.name) = none
    ∧ cloudWithCorp.wlans.find? (fun x => x.ssid == sampleWlan.ssid) = some sampleWlanRecord
    ∧ emptyWlanCloud.wlans.find? (fun x => x.ssid == sampleWlan.ssid) = none
    ∧ (Site.delete sampleSite cloudWithHQ).1 = true
    ∧ (Site.delete sampleSite cloudWithHQ).2.2.trace
        = [ApiCall.get "orgs/o1/sites", ApiCall.delete "sites/s1"] := by
  have h := c5_delete_behaviour sampleSite cloudWithHQ sampleSiteRecord rfl
    sampleSite emptySiteCloud rfl
    sampleWlan cloudWithCorp sampleWlanRecord rfl
    sampleWlan emptyWlanCloud rfl
  exact ⟨rfl, rfl, rfl, rfl, h.1, h.2.1⟩

/-! ## C3: EAP auth validation at WLAN construction -/

/-- C3 counterexample.  The claim states the construction failure
occurs "before any network call is issued".  Constructing a WLAN with
`auth.type = "eap"` and empty `auth_servers` against a site with no
wlans does fail hard, but the trace at the moment of failure already
holds the existence-probe GET issued by `__init__` at mist_wlan.py:39
-- the validation only runs after the probe. -/
theorem c3_counterexample :
    (WLAN.init "corp" "st1" eapConfig emptyWlanCloud).1
      = .error "Authentication Type: EAP ERROR: At least one RADIUS authentication server must be defined in your configuration file"
    ∧ (WLAN.init "corp" "st1" eapConfig emptyWlanCloud).2.trace
        = [ApiCall.get "sites/st1/wlans"]
    ∧ ([ApiCall.get "sites/st1/wlans"] : List ApiCall) ≠ [] := by
  refine ⟨rfl, rfl, ?_⟩
  simp

/-- C3 (amended): constructing a WLAN with `auth.type = "eap"` and an
empty `auth_servers` sequence fails with a hard construction failure
whenever the WLAN is not already on the cloud, and no creation call is
ever issued -- but the failure occurs after the constructor's
existence probe, which has already issued one GET. -/
theorem c3_eap_validation (ssid site_id : String) (cfg : WlanConfig) (a : Auth)
    (d : WlanCloud) (ha : cfg.auth = some a) (htp : a.type = "eap")
    (hsv : cfg.auth_servers = some [])
    (hn : d.wlans.find? (fun x => x.ssid == ssid) = none) :
    (WLAN.init ssid site_id cfg d).1
      = .error "Authentication Type: EAP ERROR: At least one RADIUS authentication server must be defined in your configuration file"
    ∧ (WLAN.init ssid site_id cfg d).2.trace
        = d.trace ++ [ApiCall.get ("sites/" ++ site_id ++ "/wlans")]
    ∧ countPosts (WLAN.init ssid site_id cfg d).2.trace = countPosts d.trace := by
  have hp := wlan_probe_miss
    { wlan_id := none, ssid := ssid, site_id := site_id, band := none
      interface := none, hostname_ie := none, auth := none
      auth_servers := none, roam_mode := none, rateset := none } d hn
  simp [WLAN.init, hp, ha, htp, hsv, WLAN.validate_dot1x_configuration,
        countPosts_append, countPosts]

/-- C3 witness: a concrete eap config with empty `auth_servers`
discharging the hypotheses of `c3_eap_validation`. -/
theorem c3_witness :
    eapConfig.auth = some { type := "eap", psk := none }
    ∧ Auth.type { type := "eap", psk := none } = "eap"
    ∧ eapConfig.auth_servers = some []
    ∧ emptyWlanCloud.wlans.find? (fun x => x.ssid == "corp") = none
    ∧ (WLAN.init "corp" "st1" eapConfig emptyWlanCloud).1
        = .error "Authentication Type: EAP ERROR: At least one RADIUS authentication server must be defined in your configuration file"
    ∧ (WLAN.init "corp" "st1" eapConfig emptyWlanCloud).2.trace
        = [ApiCall.get "sites/st1/wlans"] := by
  have h := c3_eap_validation "corp" "st1" eapConfig { type := "eap", psk := none }
    emptyWlanCloud rfl rfl rfl rfl
  exact ⟨rfl, rfl, rfl, rfl, h.1, h.2.1⟩

/-! ## C9: one-shot ephemeral-credential revocation -/

/-- C9: revoking before any successful acquire raises (`tmp_token_id`
was never created); after a successful revocation the ephemeral id is
gone from the store, so a second revocation's DELETE answers a non-200
status and `delete_tmp_token` raises again rather than succeeding
silently. -/
theorem c9_revoke_one_shot
    (t : TokenState) (s : TokenStore) (h : t.tmp_token_id = none)
    (t2 : TokenState) (s2 : TokenStore) (tid : String)
    (h2 : t2.tmp_token_id = some tid)
    (h3 : s2.tokens.any (fun p => p.1 == tid) = true) :
    (Token.delete_tmp_token t s).1 = .error "tmp_token_id does not exits."
    ∧ (Token.delete_tmp_token t2 s2).1 = .ok ()
    ∧ (Token.delete_tmp_token t2 (Token.delete_tmp_token t2 s2).2).1
        = .error "Error connecting to Mist API! RESPONSE: 404" := by
  have hafter : ((s2.tokens.filter (fun p => p.1 != tid)).any (fun p => p.1 == tid)) = false :=
    any_filter_bne (fun p => p.1) tid s2.tokens
  refine ⟨?_, ?_, ?_⟩
  · simp [Token.delete_tmp_token, h]
  · simp [Token.delete_tmp_token, h2, h3]
  · simp [Token.delete_tmp_token, h2, h3, hafter]

/-- C9 witness: a freshly acquired ephemeral token discharging the
hypotheses of `c9_revoke_one_shot`. -/
theorem c9_witness :
    tokenNever.tmp_token_id = none
    ∧ (Token.get_tmp_token tokenNever tokenStore0).1.tmp_token_id = some "tid1"
    ∧ ((Token.get_tmp_token tokenNever tokenStore0).2.tokens.any
        (fun p => p.1 == "tid1")) = true
    ∧ (Token.delete_tmp_token tokenNever tokenStore0).1
        = .error "tmp_token_id does not exits."
    ∧ (Token.delete_tmp_token (Token.get_tmp_token tokenNever tokenStore0).1
        (Token.get_tmp_token tokenNever tokenStore0).2).1 = .ok () := by
  have h := c9_revoke_one_shot tokenNever tokenStore0 rfl
    (Token.get_tmp_token tokenNever tokenStore0).1
    (Token.get_tmp_token tokenNever tokenStore0).2 "tid1" rfl rfl
  exact ⟨rfl, rfl, rfl, h.1, h.2.1⟩

/-! ## AP helper lemmas -/

theorem AP.inv_probe (a : APState) (org_id : String) (w : APWorld) :
    AP.has_been_claimed a org_id w =
      (w.inventory.any (fun dev => dev.mac == a.mac),
       { w with trace := w.trace ++
           [ApiCall.get ("installer/orgs/" ++ org_id ++ "/devices")] }) := rfl

theorem AP.site_probe_present (a : APState) (w : APWorld) (dev : SiteDevice)
    (h : w.siteDevices.find? (fun x => x.typ == "ap" && x.mac == a.mac) = some dev) :
    AP.does_belong_to_site a w =
      (true,
       { a with id := some dev.id, serial := some dev.serial, model := some dev.model },
       { w with
           trace := w.trace ++ [ApiCall.get ("sites/" ++ optToStr a.site_id ++ "/devices")]
           mapHeap := w.mapHeap.set a.map_ref (dictSet (w.mapHeap.getD a.map_ref []) "id" dev.map_id) }) := by
  simp [AP.does_belong_to_site, h]

theorem AP.site_probe_absent (a : APState) (w : APWorld)
    (h : w.siteDevices.find? (fun x => x.typ == "ap" && x.mac == a.mac) = none) :
    AP.does_belong_to_site a w =
      (false, a,
       { w with trace := w.trace ++
           [ApiCall.get ("sites/" ++ optToStr a.site_id ++ "/devices")] }) := by
  simp [AP.does_belong_to_site, h]

/-- Scanning a dictionary whose matching entries were all replaced by
`(k, v)` finds `(k, v)` exactly when the original scan found an
entry. -/
theorem find?_map_if (t : MapDict) (k : String) (v : Option String) :
    (t.map (fun q => if q.1 == k then (k, v) else q)).find? (fun q => q.1 == k)
      = (t.find? (fun q => q.1 == k)).map (fun _ => (k, v)) := by
  induction t with
  | nil => rfl
  | cons p t ih =>
    cases hpb : (p.1 == k) with
    | true =>
      simp only [List.map, List.find?, hpb, if_true]
      simp [List.find?]
    | false =>
      simp only [List.map, List.find?, hpb, Bool.false_eq_true, if_false]
      exact ih

/-- Reading back a freshly set dictionary key. -/
theorem dictGet_dictSet (d : MapDict) (k : String) (v : Option String) :
    dictGet (dictSet d k v) k = some v := by
  unfold dictSet
  by_cases h : d.any (fun p => p.1 == k) = true
  · rw [if_pos h]
    unfold dictGet
    rw [find?_map_if]
    rcases hf : d.find? (fun p => p.1 == k) with _ | q
    · rcases List.any_eq_true.1 h with ⟨x, hx, hxk⟩
      rw [List.find?_eq_none] at hf
      exact absurd hxk (hf x hx)
    · rw [hf]
      rfl
  · rw [if_neg h]
    unfold dictGet
    have hnone : d.find? (fun p => p.1 == k) = none := by
      rw [List.find?_eq_none]
      intro x hx hxk
      exact h (List.any_eq_true.2 ⟨x, hx, hxk⟩)
    rw [find?_append_of_none _ _ _ hnone]
    simp [List.find?]

/-! ## C6: claim requires a claim code -/

/-- C6 counterexample.  The claim states that with no claim code
available, `claim(org)` fails hard "aborting before any network call",
and that a non-empty claim code is required.  Scenario A: with
`claim_code = None` the call does raise, but the trace already holds
the inventory-probe GET issued first.  Scenario B: an empty-string
claim code is not `None`, so it passes the check and the claim POST is
issued and succeeds -- emptiness is never required. -/
theorem c6_counterexample :
    (AP.claim sampleAPNoCode "o1" apWorldUnclaimed).1
      = .error "No claim code has been provided to claim this AP."
    ∧ (AP.claim sampleAPNoCode "o1" apWorldUnclaimed).2.trace
        = [ApiCall.get "installer/orgs/o1/devices"]
    ∧ ([ApiCall.get "installer/orgs/o1/devices"] : List ApiCall) ≠ []
    ∧ (AP.claim sampleAPEmptyCode "o1" apWorldUnclaimed).1
        = .ok { sampleAPEmptyCode with
                  id := some "dev1", serial := some "ser1", model := some "mod1" } := by
  refine ⟨rfl, rfl, ?_, rfl⟩
  simp

/-- C6 (amended): for an AP whose MAC is not in the organization
inventory, `claim(org)` requires the claim code to be set: if
`claim_code` is `None` it fails hard after the inventory-probe GET but
before any claim submission (no POST is issued); if a claim code is
present -- the empty string included -- it submits the code and on
success adopts the remote id, serial and model. -/
theorem c6_claim_requires_code
    (a : APState) (org : String) (w : APWorld)
    (h1 : w.inventory.any (fun dev => dev.mac == a.mac) = false)
    (h2 : a.claim_code = none)
    (b : APState) (org2 : String) (v : APWorld) (cc : String)
    (x : InvAdded) (rest : List InvAdded)
    (h3 : v.inventory.any (fun dev => dev.mac == b.mac) = false)
    (h4 : b.claim_code = some cc)
    (h5 : v.claimResp = some (x :: rest)) :
    (AP.claim a org w).1 = .error "No claim code has been provided to claim this AP."
    ∧ (AP.claim a org w).2.trace
        = w.trace ++ [ApiCall.get ("installer/orgs/" ++ a.api_org ++ "/devices")]
    ∧ countPosts (AP.claim a org w).2.trace = countPosts w.trace
    ∧ (AP.claim b org2 v).1
        = .ok { b with id := some x.id, serial := some x.serial, model := some x.model }
    ∧ (AP.claim b org2 v).2.trace
        = v.trace ++ [ApiCall.get ("installer/orgs/" ++ b.api_org ++ "/devices"),
                      ApiCall.post ("orgs/" ++ org2 ++ "/inventory")
                        (ReqBody.claimCodes [cc])] := by
  simp [AP.claim, AP.has_been_claimed, h1, h2, h3, h4, h5,
        countPosts_append, countPosts]

/-- C6 witness: concrete unclaimed worlds discharging the hypotheses of
`c6_claim_requires_code`. -/
theorem c6_witness :
    apWorldUnclaimed.inventory.any (fun dev => dev.mac == sampleAPNoCode.mac) = false
    ∧ sampleAPNoCode.claim_code = none
    ∧ sampleAP.claim_code = some "CODE-1"
    ∧ apWorldUnclaimed.claimResp = some [{ id := "dev1", serial := "ser1", model := "mod1" }]
    ∧ (AP.claim sampleAPNoCode "o1" apWorldUnclaimed).1
        = .error "No claim code has been provided to claim this AP."
    ∧ (AP.claim sampleAP "o1" apWorldUnclaimed).1
        = .ok { sampleAP with id := some "dev1", serial := some "ser1", model := some "mod1" } := by
  have h := c6_claim_requires_code sampleAPNoCode "o1" apWorldUnclaimed rfl rfl
    sampleAP "o1" apWorldUnclaimed "CODE-1"
    { id := "dev1", serial := "ser1", model := "mod1" } [] rfl rfl rfl
  exact ⟨rfl, rfl, rfl, rfl, h.1, h.2.2.2.1⟩

/-! ## C7: dual-state independence of claimed and assigned -/

/-- C7: for an AP probed as claimed (its MAC is in the org inventory)
and unassigned (no ap-typed record with its MAC in the site's device
list), `configure_radios()` raises before any radio-configuration PUT
is issued, while `provision(name)` is accepted and proceeds to submit
the provisioning PUT. -/
theorem c7_dual_state
    (a : APState) (w : APWorld) (nm : String) (r : ProvResp)
    (_hclaimed : w.inventory.any (fun dev => dev.mac == a.mac) = true)
    (hnosite : w.siteDevices.find? (fun x => x.typ == "ap" && x.mac == a.mac) = none)
    (hp : w.provResp = some r) :
    (AP.configure_radios a w).1
      = .error ("AP " ++ optToStr a.name ++ " does not belong to a site.")
    ∧ (AP.configure_radios a w).2.trace
        = w.trace ++ [ApiCall.get ("sites/" ++ optToStr a.site_id ++ "/devices")]
    ∧ countPuts (AP.configure_radios a w).2.trace = countPuts w.trace
    ∧ (AP.provision a nm w).1
        = .ok { a with id := some r.id, serial := some r.serial, model := some r.model }
    ∧ (AP.provision a nm w).2.trace
        = w.trace ++ [ApiCall.get ("sites/" ++ optToStr a.site_id ++ "/devices"),
                      ApiCall.put ("installer/orgs/" ++ a.api_org ++ "/devices/" ++ a.mac)
                        (ReqBody.prov (AP.provision_body a nm (w.mapHeap.getD a.map_ref [])))] := by
  have hpa := AP.site_probe_absent a w hnosite
  simp [AP.configure_radios, AP.provision, hpa, hp, countPuts_append, countPuts]

/-- C7 witness: a concrete claimed-but-unassigned world discharging the
hypotheses of `c7_dual_state`. -/
theorem c7_witness :
    apWorldClaimedOnly.inventory.any (fun dev => dev.mac == sampleAP.mac) = true
    ∧ apWorldClaimedOnly.siteDevices.find?
        (fun x => x.typ == "ap" && x.mac == sampleAP.mac) = none
    ∧ apWorldClaimedOnly.provResp = some { id := "dev1", serial := "ser1", model := "mod1" }
    ∧ (AP.configure_radios sampleAP apWorldClaimedOnly).1
        = .error "AP ap-1 does not belong to a site."
    ∧ (AP.provision sampleAP "ap-1" apWorldClaimedOnly).1
        = .ok { sampleAP with id := some "dev1", serial := some "ser1", model := some "mod1" } := by
  have h := c7_dual_state sampleAP apWorldClaimedOnly "ap-1"
    { id := "dev1", serial := "ser1", model := "mod1" } rfl rfl rfl
  exact ⟨rfl, rfl, rfl, h.1, h.2.2.2.1⟩

/-! ## C8: unassign success confirmation -/

/-- C8 counterexample.  The claim states that "when the response's
success list echoes the MAC it clears the local site fields" and that
every other response is logged non-fatally.  With the reply's success
list `["other", "aa:bb"]` the MAC is echoed (at index 1), yet the code
only compares index `[0]`, logs the error path and leaves `site_id`
set; and with a failed PUT (absent body) the `['success'][0]` subscript
raises a `TypeError` instead of logging non-fatally. -/
theorem c8_counterexample :
    ("aa:bb" ∈ ["other", "aa:bb"])
    ∧ (AP.unassign sampleAP "o1" (apWorldAssigned (some (some ["other", "aa:bb"])))).1
        = .ok { sampleAP with id := some "dev1", serial := some "ser1", model := some "mod1" }
    ∧ ({ sampleAP with id := some "dev1", serial := some "ser1", model := some "mod1" }
        : APState).site_id = some "st1"
    ∧ (AP.unassign sampleAP "o1" (apWorldAssigned none)).1
        = .error "TypeError: NoneType is not subscriptable" := by
  refine ⟨?_, rfl, rfl, rfl⟩
  simp

/-- C8 (amended): for an AP assigned to a site, `unassign(org)` submits
a bulk unassign op keyed by the AP's MAC; it clears the local site
fields exactly when index `[0]` of the response's success list equals
the MAC; any other response carrying a non-empty success list is logged
as an error non-fatally with the site fields left unchanged; a response
with an absent body, a missing `success` key or an empty success list
raises at the subscript instead. -/
theorem c8_unassign_first_element
    (a : APState) (org : String) (w : APWorld) (dev : SiteDevice)
    (hdev : w.siteDevices.find? (fun x => x.typ == "ap" && x.mac == a.mac) = some dev) :
    (AP.unassign a org w).2.trace
      = w.trace ++ [ApiCall.get ("sites/" ++ optToStr a.site_id ++ "/devices"),
                    ApiCall.put ("orgs/" ++ org ++ "/inventory")
                      (ReqBody.inv "unassign" [a.mac])]
    ∧ (∀ rest, w.invPutSuccess = some (some (a.mac :: rest)) →
        (AP.unassign a org w).1
          = .ok { a with id := some dev.id, serial := some dev.serial,
                         model := some dev.model, site_id := none, site_name := none })
    ∧ (∀ m rest, w.invPutSuccess = some (some (m :: rest)) → m ≠ a.mac →
        (AP.unassign a org w).1
          = .ok { a with id := some dev.id, serial := some dev.serial,
                         model := some dev.model })
    ∧ (w.invPutSuccess = some (some []) →
        (AP.unassign a org w).1 = .error "IndexError: list index out of range")
    ∧ (w.invPutSuccess = some none →
        (AP.unassign a org w).1 = .error "KeyError: success")
    ∧ (w.invPutSuccess = none →
        (AP.unassign a org w).1 = .error "TypeError: NoneType is not subscriptable") := by
  have hpa := AP.site_probe_present a w dev hdev
  refine ⟨?_, ?_, ?_, ?_, ?_, ?_⟩
  · rcases hx : w.invPutSuccess with _ | o
    · simp [AP.unassign, hpa, hx]
    · rcases o with _ | l
      · simp [AP.unassign, hpa, hx]
      · rcases l with _ | ⟨m, rest⟩
        · simp [AP.unassign, hpa, hx]
        · cases hm : (m == a.mac) with
          | true => simp [AP.unassign, hpa, hx, hm]
          | false => simp [AP.unassign, hpa, hx, hm]
  · intro rest hx
    simp [AP.unassign, hpa, hx]
  · intro m rest hx hm
    simp [AP.unassign, hpa, hx, hm]
  · intro hx
    simp [AP.unassign, hpa, hx]
  · intro hx
    simp [AP.unassign, hpa, hx]
  · intro hx
    simp [AP.unassign, hpa, hx]

/-- C8 witness: a confirmed-success reply discharging the hypotheses of
`c8_unassign_first_element`. -/
theorem c8_witness :
    (apWorldAssigned (some (some ["aa:bb"]))).siteDevices.find?
        (fun x => x.typ == "ap" && x.mac == sampleAP.mac) = some apDev
    ∧ (apWorldAssigned (some (some ["aa:bb"]))).invPutSuccess = some (some ["aa:bb"])
    ∧ (AP.unassign sampleAP "o1" (apWorldAssigned (some (some ["aa:bb"])))).1
        = .ok { sampleAP with id := some "dev1", serial := some "ser1",
                              model := some "mod1", site_id := none, site_name := none }
    ∧ (AP.unassign sampleAP "o1" (apWorldAssigned (some (some ["aa:bb"])))).2.trace
        = [ApiCall.get "sites/st1/devices",
           ApiCall.put "orgs/o1/inventory" (ReqBody.inv "unassign" ["aa:bb"])] := by
  have h := c8_unassign_first_element sampleAP "o1"
    (apWorldAssigned (some (some ["aa:bb"]))) apDev rfl
  exact ⟨rfl, rfl, h.2.1 [] rfl, h.1⟩

/-! ## C10: class-level mutable dictionaries are shared -/

/-- The heap effect of `AP.configure_radios` when the AP is assigned:
both band blocks are written into the shared `radio_configs` cell,
whatever the radio PUT's reply is. -/
theorem AP.configure_radios_heap (a : APState) (w : APWorld) (dev : SiteDevice)
    (hdev : w.siteDevices.find? (fun x => x.typ == "ap" && x.mac == a.mac) = some dev)
    (v0 : BandsDict) (hcell : w.radioHeap.getD a.radio_ref none = some v0) :
    (AP.configure_radios a w).2.radioHeap
      = w.radioHeap.set a.radio_ref
          (some { band_24 := some { power := a.cfg.p24, channel := a.cfg.c24 }
                  band_5 := some { power := a.cfg.p5, channel := a.cfg.c5,
                                   bandwidth := a.cfg.bw5 } }) := by
  have hprobe := AP.site_probe_present a w dev hdev
  have hcell2 : w.radioHeap[a.radio_ref]?.getD none = some v0 := by
    simpa [List.getD] using hcell
  rcases hx : w.radioPutResp with _ | resp
  · simp [AP.configure_radios, hprobe, hx, hcell2]
  · rcases h24 : resp.band_24 with _ | b1 <;> rcases h5 : resp.band_5 with _ | b2 <;>
      simp [AP.configure_radios, hprobe, hx, hcell2, h24, h5]

/-- C10: `AP.map` and `AP.radio_configs` are class-level mutable
dictionaries, and no method ever attribute-assigns them, so any two AP
instances resolve them to the same heap cells: after constructing `a`
and `b` from the same class object, `a`'s `_does_belong_to_site` write
of `map['id']` is observable through `b`'s `map` reference, and `a`'s
`configure_radios` write of the band blocks is observable through `b`'s
`radio_configs` reference -- per-instance isolation does not hold. -/
theorem c10_shared_class_dicts
    (mac1 mac2 st1 st2 og1 og2 : String) (cfg1 cfg2 : APConfig)
    (cls : APClass) (w : APWorld) (dev : SiteDevice)
    (a : APState) (w1 : APWorld) (b : APState) (w2 : APWorld)
    (hA : AP.init mac1 st1 og1 cfg1 cls w = (a, w1))
    (hB : AP.init mac2 st2 og2 cfg2 cls w1 = (b, w2))
    (hmr : cls.map_ref < w.mapHeap.length)
    (hrr : cls.radio_ref < w.radioHeap.length)
    (hdev : w.siteDevices.find? (fun x => x.typ == "ap" && x.mac == mac1) = some dev) :
    a.map_ref = b.map_ref
    ∧ a.radio_ref = b.radio_ref
    ∧ dictGet (((AP.does_belong_to_site a w2).2.2.mapHeap).getD b.map_ref []) "id"
        = some dev.map_id
    ∧ ((AP.configure_radios a w2).2.radioHeap).getD b.radio_ref none
        = some { band_24 := some { power := cfg1.p24, channel := cfg1.c24 }
                 band_5 := some { power := cfg1.p5, channel := cfg1.c5,
                                  bandwidth := cfg1.bw5 } } := by
  have ha : a = (AP.init mac1 st1 og1 cfg1 cls w).1 := by rw [hA]
  have hw1 : w1 = (AP.init mac1 st1 og1 cfg1 cls w).2 := by rw [hA]
  subst ha
  subst hw1
  have hb : b = (AP.init mac2 st2 og2 cfg2 cls (AP.init mac1 st1 og1 cfg1 cls w).2).1 := by
    rw [hB]
  have hw2 : w2 = (AP.init mac2 st2 og2 cfg2 cls (AP.init mac1 st1 og1 cfg1 cls w).2).2 := by
    rw [hB]
  subst hb
  subst hw2
  have hfind : ((AP.init mac2 st2 og2 cfg2 cls
        (AP.init mac1 st1 og1 cfg1 cls w).2).2).siteDevices.find?
        (fun x => x.typ == "ap" && x.mac == ((AP.init mac1 st1 og1 cfg1 cls w).1).mac)
      = some dev := hdev
  have hcell : ((AP.init mac2 st2 og2 cfg2 cls
        (AP.init mac1 st1 og1 cfg1 cls w).2).2).radioHeap.getD
        ((AP.init mac1 st1 og1 cfg1 cls w).1).radio_ref none
      = some { band_24 := none, band_5 := none } := by
    show (((w.radioHeap.set cls.radio_ref (some { band_24 := none, band_5 := none })).set
        cls.radio_ref (some { band_24 := none, band_5 := none })).getD cls.radio_ref none)
      = some { band_24 := none, band_5 := none }
    rw [getD_set_self _ _ _ _ (by simpa using hrr)]
  refine ⟨rfl, rfl, ?_, ?_⟩
  · rw [AP.site_probe_present _ _ dev hfind]
    show dictGet ((w.mapHeap.set cls.map_ref
        (dictSet (w.mapHeap.getD cls.map_ref []) "id" dev.map_id)).getD cls.map_ref []) "id"
      = some dev.map_id
    rw [getD_set_self _ _ _ _ hmr, dictGet_dictSet]
  · rw [AP.configure_radios_heap _ _ dev hfind _ hcell]
    show ((((w.radioHeap.set cls.radio_ref (some { band_24 := none, band_5 := none })).set
        cls.radio_ref (some { band_24 := none, band_5 := none })).set cls.radio_ref
        (some { band_24 := some { power := cfg1.p24, channel := cfg1.c24 }
                band_5 := some { power := cfg1.p5, channel := cfg1.c5,
                                 bandwidth := cfg1.bw5 } })).getD cls.radio_ref none)
      = some { band_24 := some { power := cfg1.p24, channel := cfg1.c24 }
               band_5 := some { power := cfg1.p5, channel := cfg1.c5,
                                bandwidth := cfg1.bw5 } }
    rw [getD_set_self _ _ _ _ (by simpa using hrr)]

/-- C10 witness: two concrete constructions over the same class object
discharging the hypotheses of `c10_shared_class_dicts`. -/
theorem c10_witness :
    AP.init "aa:bb" "st1" "o1" apCfg apClass0 apWorldC10
      = ((AP.init "aa:bb" "st1" "o1" apCfg apClass0 apWorldC10).1,
         (AP.init "aa:bb" "st1" "o1" apCfg apClass0 apWorldC10).2)
    ∧ apClass0.map_ref < apWorldC10.mapHeap.length
    ∧ apWorldC10.siteDevices.find? (fun x => x.typ == "ap" && x.mac == "aa:bb") = some apDev
    ∧ (AP.init "aa:bb" "st1" "o1" apCfg apClass0 apWorldC10).1.map_ref
        = (AP.init "cc:dd" "st2" "o1" apCfg apClass0
            (AP.init "aa:bb" "st1" "o1" apCfg apClass0 apWorldC10).2).1.map_ref
    ∧ dictGet (((AP.does_belong_to_site
          (AP.init "aa:bb" "st1" "o1" apCfg apClass0 apWorldC10).1
          (AP.init "cc:dd" "st2" "o1" apCfg apClass0
            (AP.init "aa:bb" "st1" "o1" apCfg apClass0 apWorldC10).2).2).2.2.mapHeap).getD
          (AP.init "cc:dd" "st2" "o1" apCfg apClass0
            (AP.init "aa:bb" "st1" "o1" apCfg apClass0 apWorldC10).2).1.map_ref []) "id"
        = some (some "map1") := by
  have h := c10_shared_class_dicts "aa:bb" "cc:dd" "st1" "st2" "o1" "o1" apCfg apCfg
    apClass0 apWorldC10 apDev
    (AP.init "aa:bb" "st1" "o1" apCfg apClass0 apWorldC10).1
    (AP.init "aa:bb" "st1" "o1" apCfg apClass0 apWorldC10).2
    (AP.init "cc:dd" "st2" "o1" apCfg apClass0
      (AP.init "aa:bb" "st1" "o1" apCfg apClass0 apWorldC10).2).1
    (AP.init "cc:dd" "st2" "o1" apCfg apClass0
      (AP.init "aa:bb" "st1" "o1" apCfg apClass0 apWorldC10).2).2
    rfl rfl (by decide) (by decide) rfl
  exact ⟨rfl, by decide, rfl, h.1, h.2.2.1⟩

end SemfioMist
